import Mathlib

/-!
Verification of the drone ground-controller (`finalcontrol.py`).

The controller owns a mutable control-state dictionary (throttle, yaw,
pitch, roll, aux — Python ints), a keep-alive flag, a running flag and a
command queue. A background worker thread pops one queued command per tick
(or, on timeout, transmits the encoded current control state), and the
maneuver methods (`takeoff`, `land`, `emergency_stop`, `manual_control`)
mutate the state and send packets from the calling thread.

Python ints are unbounded, so control fields are embedded as `Int`.
`bytes([...])` raises `ValueError` on a value outside 0..255, which is
embedded as `pyBytes : List Int → Except String (List Int)`. Socket sends
may fail; the outcome of one `sendto` call is an oracle parameter of type
`Except String Unit`. Unexpected exceptions inside one worker-loop
iteration are likewise injected through an `Option String` oracle.
-/

/-- Control state dictionary `current_cmd`: five Python-int fields. -/
structure ControlState where
  throttle : Int
  yaw : Int
  pitch : Int
  roll : Int
  aux : Int
deriving DecidableEq, Repr

/-- An entry of `command_queue`: either raw bytes to send verbatim, or the
`KEEP_ALIVE` marker string. -/
inductive QCommand where
  | raw (data : List Int)
  | keepAlive
deriving DecidableEq, Repr

/-- The `DroneController` object's fields that the claims concern. -/
structure ControllerState where
  drone_ip : String
  command_port : Int
  debug : Bool
  command_queue : List QCommand
  running : Bool
  keep_alive_active : Bool
  current_cmd : ControlState
deriving DecidableEq, Repr

/-- State of a fresh `DroneController.__init__(ip, port, debug)`:
neutral axes, aux 0, keep-alive off, empty queue, running set. -/
def initController (ip : String) (port : Int) (dbg : Bool) : ControllerState :=
  { drone_ip := ip
    command_port := port
    debug := dbg
    command_queue := []
    running := true
    keep_alive_active := false
    current_cmd := { throttle := 0x80, yaw := 0x80, pitch := 0x80, roll := 0x80, aux := 0x00 } }

/-- Packet layout built in `_send_current_command`:
`bytes([0x66, throttle, yaw, pitch, roll, aux, 0x99])` before the
`bytes` range check. -/
def mkPacket (c : ControlState) : List Int :=
  [0x66, c.throttle, c.yaw, c.pitch, c.roll, c.aux, 0x99]

/-- Python `bytes(list)`: succeeds iff every element is in 0..255,
otherwise raises `ValueError`. -/
def pyBytes (l : List Int) : Except String (List Int) :=
  if ∀ b ∈ l, 0 ≤ b ∧ b ≤ 255 then .ok l else .error "ValueError"

/-- Packet construction of `_send_current_command`: build the 7-byte wire
packet from the current control state (the subsequent transmission is the
transport's business). -/
def send_current_command (c : ControlState) : Except String (List Int) :=
  pyBytes (mkPacket c)

/-- `DroneController.set_controls`: each supplied field is stored as
`max(0, min(255, value))`; absent (`None`) fields keep their value. -/
def set_controls (s : ControllerState) (throttle yaw pitch roll aux : Option Int) :
    ControllerState :=
  let c0 := s.current_cmd
  let c1 := match throttle with
    | some v => { c0 with throttle := max 0 (min 255 v) }
    | none => c0
  let c2 := match yaw with
    | some v => { c1 with yaw := max 0 (min 255 v) }
    | none => c1
  let c3 := match pitch with
    | some v => { c2 with pitch := max 0 (min 255 v) }
    | none => c2
  let c4 := match roll with
    | some v => { c3 with roll := max 0 (min 255 v) }
    | none => c3
  let c5 := match aux with
    | some v => { c4 with aux := max 0 (min 255 v) }
    | none => c4
  { s with current_cmd := c5 }

/-- One optional-field update of `set_controls`. -/
def updField (o : Option Int) (old : Int) : Int :=
  match o with
  | some v => max 0 (min 255 v)
  | none => old

lemma set_controls_eq (s : ControllerState) (t y p r a : Option Int) :
    set_controls s t y p r a =
      { s with current_cmd :=
          { throttle := updField t s.current_cmd.throttle
            yaw := updField y s.current_cmd.yaw
            pitch := updField p s.current_cmd.pitch
            roll := updField r s.current_cmd.roll
            aux := updField a s.current_cmd.aux } } := by
  cases t <;> cases y <;> cases p <;> cases r <;> cases a <;> rfl

/-- `DroneController.start_keep_alive`. -/
def start_keep_alive (s : ControllerState) : ControllerState :=
  { s with keep_alive_active := true }

/-- `DroneController.stop_keep_alive`. -/
def stop_keep_alive (s : ControllerState) : ControllerState :=
  { s with keep_alive_active := false }

/-- Payload handed to `sock.sendto` by `_send_command_direct`: either real
bytes, or the `KEEP_ALIVE` marker string that a honored keep-alive queue
entry passes through unchanged. -/
inductive Payload where
  | bytes (data : List Int)
  | keepAliveMarker
deriving DecidableEq, Repr

/-- Payload that `_send_command_direct` receives for a queue entry. -/
def payloadOf : QCommand → Payload
  | .raw d => .bytes d
  | .keepAlive => .keepAliveMarker

/-- `DroneController._send_command_direct`: the `sendto` call sits inside
its own `try`; on any exception the function prints and returns `False`,
on success it returns `True`. The outcome of the `sendto` call is the
oracle argument. -/
def send_command_direct (sendResult : Except String Unit) : Bool :=
  match sendResult with
  | .ok _ => true
  | .error _ => false

/-- How one iteration of `_command_worker`'s `while` loop ends. -/
inductive IterOutcome where
  | continueAfterTick
  | continueImmediate
  | continueAfterBackoff
  | crashed (e : String)
deriving DecidableEq, Repr

/-- Whether an iteration outcome escaped the worker's fault boundary. -/
def isCrashed : IterOutcome → Bool
  | .crashed _ => true
  | _ => false

/-- Body of one `_command_worker` iteration inside the outer `try`:
`popped` is the result of `command_queue.get(timeout=0.1)` (`none` =
`Empty`), `sendResult` the outcome of the single `sendto` call this
iteration makes, and `fault` an unexpected exception raised inside the
iteration outside `_send_command_direct`'s own handler. The list records
each `sendto` invocation (payload, value `_send_command_direct`
returned). A `KEEP_ALIVE` entry with the flag clear hits `continue`,
skipping the 0.05 s sleep; an `Empty` pop builds the current-state packet
with `bytes(...)`, whose `ValueError` would propagate to the outer
handler. -/
def worker_try_body (s : ControllerState) (popped : Option QCommand)
    (sendResult : Except String Unit) (fault : Option String) :
    Except String (IterOutcome × List (Payload × Bool)) :=
  match fault with
  | some f => .error f
  | none =>
    match popped with
    | some cmd =>
      if cmd = QCommand.keepAlive ∧ s.keep_alive_active = false then
        .ok (.continueImmediate, [])
      else
        .ok (.continueAfterTick, [(payloadOf cmd, send_command_direct sendResult)])
    | none =>
      match send_current_command s.current_cmd with
      | .ok pkt => .ok (.continueAfterTick, [(.bytes pkt, send_command_direct sendResult)])
      | .error e => .error e

/-- One iteration of `_command_worker`: the outer `except Exception`
catches anything the body raises, prints, sleeps 1 s and lets the loop
resume. -/
def command_worker_iter (s : ControllerState) (popped : Option QCommand)
    (sendResult : Except String Unit) (fault : Option String) :
    IterOutcome × List (Payload × Bool) :=
  match worker_try_body s popped sendResult fault with
  | .ok r => r
  | .error _ => (.continueAfterBackoff, [])

/-- `DroneController.takeoff`: neutral axes plus arm marker, enable
keep-alive, wait, clear aux; returns `True`. -/
def takeoff (s : ControllerState) : ControllerState × Bool :=
  let s := set_controls s (some 0x80) (some 0x80) (some 0x80) (some 0x80) (some 0x01)
  let s := start_keep_alive s
  let s := set_controls s none none none none (some 0x00)
  (s, true)

/-- `DroneController.land`: reduced throttle plus land marker, wait,
disable keep-alive, restore neutral throttle and clear aux; returns
`True`. -/
def land (s : ControllerState) : ControllerState × Bool :=
  let s := set_controls s (some 0x40) (some 0x80) (some 0x80) (some 0x80) (some 0x02)
  let s := stop_keep_alive s
  let s := set_controls s (some 0x80) none none none (some 0x00)
  (s, true)

/-- The four `(throttle, yaw, pitch, roll, aux)` emergency-stop patterns. -/
def emergencyPatterns : List (Int × Int × Int × Int × Int) :=
  [(0x40, 0x80, 0x80, 0x80, 0x04),
   (0x40, 0x80, 0x80, 0x80, 0x00),
   (0x40, 0x80, 0x80, 0x80, 0x08),
   (0x40, 0x80, 0x80, 0x80, 0x10)]

/-- One burst step of `emergency_stop`: apply a pattern via
`set_controls`, then `_send_current_command`. -/
def emergencyStep (acc : ControllerState × List (List Int))
    (p : Int × Int × Int × Int × Int) :
    Except String (ControllerState × List (List Int)) :=
  let s := set_controls acc.1 (some p.1) (some p.2.1) (some p.2.2.1) (some p.2.2.2.1)
    (some p.2.2.2.2)
  match send_current_command s.current_cmd with
  | .ok pkt => .ok (s, acc.2 ++ [pkt])
  | .error e => .error e

/-- `DroneController.emergency_stop`: three repetitions of the
four-pattern burst, then the stop state sent five more times, then
keep-alive off; returns `True`. Carries the packets transmitted by this
call (in order) and propagates a `bytes` failure, since the method has no
handler of its own. -/
def emergency_stop (s : ControllerState) :
    Except String (ControllerState × List (List Int) × Bool) := do
  let (s, sends) ← (List.replicate 3 emergencyPatterns).flatten.foldlM emergencyStep (s, [])
  let s := set_controls s (some 0x40) (some 0x80) (some 0x80) (some 0x80) (some 0x00)
  let (s, sends) ← (List.range 5).foldlM
    (fun (acc : ControllerState × List (List Int)) _ =>
      match send_current_command acc.1.current_cmd with
      | .ok pkt => .ok (acc.1, acc.2 ++ [pkt])
      | .error e => .error e) (s, sends)
  let s := stop_keep_alive s
  .ok (s, sends, true)

/-- Per-keystroke mutation of `manual_control`'s loop (step = 3): direct
`current_cmd` writes clamped to the 0x40..0xC0 safety range; any other
key (including `q`, which exits first) leaves the state unchanged. -/
def manual_control_step (key : Char) (c : ControlState) : ControlState :=
  if key = 'w' then { c with throttle := min 0xC0 (c.throttle + 3) }
  else if key = 's' then { c with throttle := max 0x40 (c.throttle - 3) }
  else if key = 'a' then { c with yaw := max 0x40 (c.yaw - 3) }
  else if key = 'd' then { c with yaw := min 0xC0 (c.yaw + 3) }
  else if key = 'i' then { c with pitch := min 0xC0 (c.pitch + 3) }
  else if key = 'k' then { c with pitch := max 0x40 (c.pitch - 3) }
  else if key = 'j' then { c with roll := max 0x40 (c.roll - 3) }
  else if key = 'l' then { c with roll := min 0xC0 (c.roll + 3) }
  else c

/-- Modelled from the spec: `decode(bytes[7]) -> ControlState | error` is
absent from the source (the spec keeps it for protocol tests only). It
fails with `MalformedPacket` if the length is not 7 or the header byte is
not 0x66 or the footer byte is not 0x99, and otherwise reads the five
fields back from offsets 1..5. -/
def decode (pkt : List Int) : Except String ControlState :=
  match pkt with
  | [h, t, y, p, r, a, f] =>
    if h = 0x66 ∧ f = 0x99 then
      .ok { throttle := t, yaw := y, pitch := p, roll := r, aux := a }
    else
      .error "MalformedPacket"
  | _ => .error "MalformedPacket"

/-- The range invariant of the spec: every control field lies in 0..255. -/
def inRange (c : ControlState) : Prop :=
  0 ≤ c.throttle ∧ c.throttle ≤ 255 ∧
  0 ≤ c.yaw ∧ c.yaw ≤ 255 ∧
  0 ≤ c.pitch ∧ c.pitch ≤ 255 ∧
  0 ≤ c.roll ∧ c.roll ≤ 255 ∧
  0 ≤ c.aux ∧ c.aux ≤ 255

instance (c : ControlState) : Decidable (inRange c) := by
  unfold inRange
  infer_instance

lemma send_current_command_ok (c : ControlState) (h : inRange c) :
    send_current_command c = .ok (mkPacket c) := by
  obtain ⟨h1, h2, h3, h4, h5, h6, h7, h8, h9, h10⟩ := h
  unfold send_current_command pyBytes
  rw [if_pos]
  intro b hb
  simp only [mkPacket, List.mem_cons, List.not_mem_nil, or_false] at hb
  rcases hb with rfl | rfl | rfl | rfl | rfl | rfl | rfl <;> omega

lemma updField_bounds (o : Option Int) (old : Int) (h0 : 0 ≤ old) (h255 : old ≤ 255) :
    0 ≤ updField o old ∧ updField o old ≤ 255 := by
  cases o <;> simp only [updField] <;> omega

set_option maxHeartbeats 1600000 in
lemma emergency_stop_run (s : ControllerState) :
    emergency_stop s =
      .ok ({ s with
              current_cmd := { throttle := 0x40, yaw := 0x80, pitch := 0x80,
                               roll := 0x80, aux := 0x00 }
              keep_alive_active := false },
        (List.replicate 3 (emergencyPatterns.map fun p =>
            [0x66, p.1, p.2.1, p.2.2.1, p.2.2.2.1, p.2.2.2.2, 0x99])).flatten ++
          List.replicate 5 [0x66, 0x40, 0x80, 0x80, 0x80, 0x00, 0x99], true) := by
  obtain ⟨ip, port, dbg, q, run, ka, cmd⟩ := s
  rfl


/-- Claim C1: for every control state whose five fields are in 0..255,
`_send_current_command` builds the outbound packet as exactly the 7 bytes
`[0x66, throttle, yaw, pitch, roll, aux, 0x99]`; the construction is a
total function and raises nothing (the `bytes` call succeeds). -/
theorem spec_C1 (c : ControlState) (h : inRange c) :
    send_current_command c =
      .ok [0x66, c.throttle, c.yaw, c.pitch, c.roll, c.aux, 0x99] ∧
    (mkPacket c).length = 7 :=
  ⟨send_current_command_ok c h, rfl⟩

/-- Claim C1 witness: the packet built from the neutral state. -/
theorem spec_C1_witness :
    inRange { throttle := 0x80, yaw := 0x80, pitch := 0x80, roll := 0x80, aux := 0x00 } ∧
    (send_current_command
          { throttle := 0x80, yaw := 0x80, pitch := 0x80, roll := 0x80, aux := 0x00 } =
        .ok [0x66, 0x80, 0x80, 0x80, 0x80, 0x00, 0x99] ∧
      (mkPacket { throttle := 0x80, yaw := 0x80, pitch := 0x80, roll := 0x80, aux := 0x00 }).length = 7) :=
  ⟨by decide, spec_C1 _ (by decide)⟩

/-- Claim C2: for every integer x supplied to `set_controls` for any of
the five fields, the stored value afterwards is `max(0, min(255, x))`;
the call is total (never rejects, never raises). In particular throttle
-5 stores 0 and throttle 999 stores 255. -/
theorem spec_C2 (s : ControllerState) (x : Int) :
    (set_controls s (some x) none none none none).current_cmd.throttle = max 0 (min 255 x) ∧
    (set_controls s none (some x) none none none).current_cmd.yaw = max 0 (min 255 x) ∧
    (set_controls s none none (some x) none none).current_cmd.pitch = max 0 (min 255 x) ∧
    (set_controls s none none none (some x) none).current_cmd.roll = max 0 (min 255 x) ∧
    (set_controls s none none none none (some x)).current_cmd.aux = max 0 (min 255 x) ∧
    (set_controls s (some (-5)) none none none none).current_cmd.throttle = 0 ∧
    (set_controls s (some 999) none none none none).current_cmd.throttle = 255 :=
  ⟨rfl, rfl, rfl, rfl, rfl,
    by rw [set_controls_eq]; norm_num [updField],
    by rw [set_controls_eq]; norm_num [updField]⟩

/-- Claim C3: when the worker pops a `KEEP_ALIVE` marker, a transmission
(an invocation of `_send_command_direct` / `sendto`) is produced iff the
keep-alive flag is set at that moment; with the flag clear the marker is
discarded by `continue` and that pop produces no transmission at all. -/
theorem spec_C3 (s : ControllerState) (res : Except String Unit) :
    ((command_worker_iter s (some QCommand.keepAlive) res none).2 ≠ [] ↔
      s.keep_alive_active = true) ∧
    (s.keep_alive_active = false →
      command_worker_iter s (some QCommand.keepAlive) res none =
        (.continueImmediate, [])) := by
  cases h : s.keep_alive_active <;>
    simp [command_worker_iter, worker_try_body, h, payloadOf]

/-- Claim C3 witness: a fresh controller (flag clear) discards the marker. -/
theorem spec_C3_witness :
    (initController "192.168.4.153" 8090 false).keep_alive_active = false ∧
    command_worker_iter (initController "192.168.4.153" 8090 false)
        (some QCommand.keepAlive) (.ok ()) none = (.continueImmediate, []) :=
  ⟨rfl, (spec_C3 (initController "192.168.4.153" 8090 false) (.ok ())).2 rfl⟩

/-- Claim C4: one `emergency_stop` call issues 17 transmissions — the
four distinct patterns, three repetitions each, followed by five copies
of the final stop packet — and returns with keep-alive disabled and
throttle 0x40. -/
theorem spec_C4 (s : ControllerState) :
    ∃ s' sends, emergency_stop s = .ok (s', sends, true) ∧
      s'.keep_alive_active = false ∧
      s'.current_cmd.throttle = 0x40 ∧
      sends.length = 17 ∧
      17 ≤ sends.length ∧
      sends = (List.replicate 3 (emergencyPatterns.map fun p =>
          [0x66, p.1, p.2.1, p.2.2.1, p.2.2.2.1, p.2.2.2.2, 0x99])).flatten ++
        List.replicate 5 [0x66, 0x40, 0x80, 0x80, 0x80, 0x00, 0x99] :=
  ⟨_, _, emergency_stop_run s, rfl, rfl, by decide, by decide, rfl⟩

/-- Claim C5: encoding any in-range control state and decoding the
resulting 7-byte packet recovers every field exactly. -/
theorem spec_C5 (c : ControlState) (h : inRange c) :
    (send_current_command c).bind decode = .ok c := by
  rw [send_current_command_ok c h]
  rfl

/-- Claim C5 witness: round-trip at a state with five distinct values. -/
theorem spec_C5_witness :
    inRange { throttle := 1, yaw := 2, pitch := 3, roll := 254, aux := 255 } ∧
    (send_current_command
          { throttle := 1, yaw := 2, pitch := 3, roll := 254, aux := 255 }).bind decode =
      .ok { throttle := 1, yaw := 2, pitch := 3, roll := 254, aux := 255 } :=
  ⟨by decide, spec_C5 _ (by decide)⟩

/-- Claim C6: a socket error during a send is caught inside
`_send_command_direct`, which reports `false` instead of propagating, so
a failed datagram leaves the iteration ending normally; any other
exception in the iteration is caught by the outer boundary, which backs
off and resumes — no input makes an iteration end in an escaped
exception. -/
theorem spec_C6 (s : ControllerState) (popped : Option QCommand)
    (res : Except String Unit) (fault : Option String)
    (p : List Int) (e f : String) :
    isCrashed (command_worker_iter s popped res fault).1 = false ∧
    command_worker_iter s (some (QCommand.raw p)) (.error e) none =
      (.continueAfterTick, [(.bytes p, false)]) ∧
    send_command_direct (.error e) = false ∧
    command_worker_iter s popped res (some f) = (.continueAfterBackoff, []) := by
  refine ⟨?_, rfl, rfl, rfl⟩
  cases fault with
  | some f2 => rfl
  | none =>
    cases popped with
    | none =>
      unfold command_worker_iter worker_try_body
      cases hsend : send_current_command s.current_cmd <;> simp [hsend, isCrashed]
    | some cmd =>
      unfold command_worker_iter worker_try_body
      by_cases hc : cmd = QCommand.keepAlive ∧ s.keep_alive_active = false <;>
        simp [hc, isCrashed]

/-- Claim C7: when `land` returns, keep-alive is disabled, throttle is
back at neutral 0x80, aux is 0x00, and the call reports success. -/
theorem spec_C7 (s : ControllerState) :
    (land s).1.keep_alive_active = false ∧
    (land s).1.current_cmd.throttle = 0x80 ∧
    (land s).1.current_cmd.aux = 0x00 ∧
    (land s).2 = true :=
  ⟨rfl, rfl, rfl, rfl⟩

/-- Claim C8: `set_controls` changes only the supplied fields — every
field whose argument is `none` keeps its previous value — and the
keep-alive flag, running flag, queue and remaining controller fields are
untouched. -/
theorem spec_C8 (s : ControllerState) (t y p r a : Option Int) :
    (t = none →
      (set_controls s t y p r a).current_cmd.throttle = s.current_cmd.throttle) ∧
    (y = none → (set_controls s t y p r a).current_cmd.yaw = s.current_cmd.yaw) ∧
    (p = none → (set_controls s t y p r a).current_cmd.pitch = s.current_cmd.pitch) ∧
    (r = none → (set_controls s t y p r a).current_cmd.roll = s.current_cmd.roll) ∧
    (a = none → (set_controls s t y p r a).current_cmd.aux = s.current_cmd.aux) ∧
    (set_controls s t y p r a).keep_alive_active = s.keep_alive_active ∧
    (set_controls s t y p r a).running = s.running ∧
    (set_controls s t y p r a).command_queue = s.command_queue ∧
    (set_controls s t y p r a).drone_ip = s.drone_ip ∧
    (set_controls s t y p r a).command_port = s.command_port ∧
    (set_controls s t y p r a).debug = s.debug := by
  refine ⟨?_, ?_, ?_, ?_, ?_, rfl, rfl, rfl, rfl, rfl, rfl⟩ <;>
    · rintro rfl
      simp [set_controls_eq, updField]

/-- Claim C8 witness: an all-`none` call on a controller with yaw 7
changes nothing. -/
theorem spec_C8_witness :
    (set_controls (set_controls (initController "192.168.4.153" 8090 false)
          none (some 7) none none none) none none none none none).current_cmd.yaw =
      (set_controls (initController "192.168.4.153" 8090 false)
          none (some 7) none none none).current_cmd.yaw :=
  (spec_C8 (set_controls (initController "192.168.4.153" 8090 false)
      none (some 7) none none none) none none none none none).2.1 rfl

/-- Claim C9: every control field is in 0..255 in the initial state and
after every mutation — `set_controls`, `takeoff`, `land`,
`emergency_stop` and the manual-control key increments. -/
theorem spec_C9 (s : ControllerState) (t y p r a : Option Int) (k : Char)
    (h : inRange s.current_cmd) :
    inRange (initController "192.168.4.153" 8090 false).current_cmd ∧
    inRange (set_controls s t y p r a).current_cmd ∧
    inRange (takeoff s).1.current_cmd ∧
    inRange (land s).1.current_cmd ∧
    (∀ s2 sends b, emergency_stop s = .ok (s2, sends, b) → inRange s2.current_cmd) ∧
    inRange (manual_control_step k s.current_cmd) := by
  obtain ⟨h1, h2, h3, h4, h5, h6, h7, h8, h9, h10⟩ := h
  refine ⟨by decide, ?_, ?_, ?_, ?_, ?_⟩
  · rw [set_controls_eq]
    exact ⟨(updField_bounds t _ h1 h2).1, (updField_bounds t _ h1 h2).2,
      (updField_bounds y _ h3 h4).1, (updField_bounds y _ h3 h4).2,
      (updField_bounds p _ h5 h6).1, (updField_bounds p _ h5 h6).2,
      (updField_bounds r _ h7 h8).1, (updField_bounds r _ h7 h8).2,
      (updField_bounds a _ h9 h10).1, (updField_bounds a _ h9 h10).2⟩
  · show inRange { throttle := 0x80, yaw := 0x80, pitch := 0x80, roll := 0x80, aux := 0x00 }
    decide
  · show inRange { throttle := 0x80, yaw := 0x80, pitch := 0x80, roll := 0x80, aux := 0x00 }
    decide
  · intro s2 sends b heq
    rw [emergency_stop_run] at heq
    simp only [Except.ok.injEq, Prod.mk.injEq] at heq
    obtain ⟨rfl, -, -⟩ := heq
    show inRange { throttle := 0x40, yaw := 0x80, pitch := 0x80, roll := 0x80, aux := 0x00 }
    decide
  · unfold manual_control_step inRange
    split_ifs <;> (try dsimp only) <;> omega

/-- Claim C9 witness: the invariant at a concrete state, an out-of-range
`set_controls` call and a `w` keypress. -/
theorem spec_C9_witness :
    inRange (initController "192.168.4.153" 8090 false).current_cmd ∧
    inRange (set_controls (initController "192.168.4.153" 8090 false)
        (some 999) none none none (some (-7))).current_cmd ∧
    inRange (takeoff (initController "192.168.4.153" 8090 false)).1.current_cmd ∧
    inRange (land (initController "192.168.4.153" 8090 false)).1.current_cmd ∧
    (∀ s2 sends b, emergency_stop (initController "192.168.4.153" 8090 false) =
      .ok (s2, sends, b) → inRange s2.current_cmd) ∧
    inRange (manual_control_step 'w'
      (initController "192.168.4.153" 8090 false).current_cmd) :=
  spec_C9 (initController "192.168.4.153" 8090 false)
    (some 999) none none none (some (-7)) 'w' (by decide)

/-- Claim C10: a fresh controller has exactly the neutral configuration
(throttle = yaw = pitch = roll = 0x80, aux = 0x00), keep-alive disabled
and an empty queue, and its first idle-tick transmission is the neutral
packet `[0x66, 0x80, 0x80, 0x80, 0x80, 0x00, 0x99]`. -/
theorem spec_C10 (ip : String) (port : Int) (dbg : Bool) :
    (initController ip port dbg).current_cmd =
      { throttle := 0x80, yaw := 0x80, pitch := 0x80, roll := 0x80, aux := 0x00 } ∧
    (initController ip port dbg).keep_alive_active = false ∧
    (initController ip port dbg).command_queue = [] ∧
    command_worker_iter (initController ip port dbg) none (.ok ()) none =
      (.continueAfterTick,
        [(.bytes [0x66, 0x80, 0x80, 0x80, 0x80, 0x00, 0x99], true)]) :=
  ⟨rfl, rfl, rfl, rfl⟩
